import Mathlib

/-!
# Verification of `clix` (voltycodes/clix), a small command-line posting tool

Shallow embedding of `src/main.go`.  The program has three parts:

* a configuration store (`loadOrCreateConfig`, `promptForConfigValues`,
  `saveConfig`) persisting a four-field credential record as indented JSON
  under the user's home directory;
* a client adapter (the third-party `gotwi` library, modelled at its
  interface: a publish oracle);
* the interactive command loop in `main` reading lines, trimming them,
  recognising the sentinels `exit`/`quit`, and publishing everything else.

Modelling choices:

* Go strings are Lean `String`s; `bufio.Reader.ReadString('\n')` results are
  `ReadResult`s: the data returned (up to and including the delimiter, or the
  data read before an error) together with an optional error, and
  standard input is a finite script `List ReadResult` (an exhausted script
  behaves as end-of-file: empty data plus an error, as a real `Reader` does).
* The file system is the content of the single config file: `Option String`.
  Directory creation and open/write failures are not modelled (no claim
  depends on them); `os.Create` truncates, so `saveConfig` replaces the
  content outright.
* `encoding/json` is a dependency, not repository code.  It is modelled
  faithfully for the shapes this program produces and consumes: the encoder
  (`encodeConfig`) reproduces Go's `Encoder` output for the `Config` struct
  with two-space indent and default HTML escaping, and the decoder
  (`decodeConfig`) parses a JSON object with string members (exact tag
  matching, later duplicates win, unknown string-valued keys ignored,
  trailing data after the value ignored, raw control characters rejected,
  lone `\uXXXX` surrogates decoded to U+FFFD) — the subset of `json.Decoder`
  behaviour exercised by config files for this struct.
* The unbounded interactive loop is run on fuel; running out of fuel marks
  the trace as cut short, distinct from normal termination.
-/

/-- The credential record persisted in `clix.json` (struct `Config` of
`src/main.go`). -/
structure Config where
  ConsumerKey    : String
  ConsumerSecret : String
  AccessToken    : String
  AccessSecret   : String
deriving Repr, DecidableEq

/-- The white-space predicate of Go's `unicode.IsSpace`, used by
`strings.TrimSpace`: ASCII spacing characters, NEL, NBSP and the Unicode
space separators. -/
def goIsSpace (c : Char) : Bool :=
  c.toNat = 0x20 || (0x9 ≤ c.toNat && c.toNat ≤ 0xD) ||
  c.toNat = 0x85 || c.toNat = 0xA0 || c.toNat = 0x1680 ||
  (0x2000 ≤ c.toNat && c.toNat ≤ 0x200A) ||
  c.toNat = 0x2028 || c.toNat = 0x2029 ||
  c.toNat = 0x202F || c.toNat = 0x205F || c.toNat = 0x3000

/-- Go's `strings.TrimSpace`: remove leading and trailing white space. -/
def trimSpace (s : String) : String :=
  ⟨((s.toList.dropWhile goIsSpace).reverse.dropWhile goIsSpace).reverse⟩

/-- Errors a buffered read can surface (`io.EOF` or any other I/O error);
their distinction never matters to this program. -/
inductive ReadError where
  | eof
  | ioError
deriving Repr, DecidableEq

/-- One result of `reader.ReadString('\n')`: the data read (up to and
including the newline on success, or whatever was read before the error)
and the error, if any. -/
structure ReadResult where
  data : String
  err  : Option ReadError
deriving Repr, DecidableEq

/-- The standard-input script: the successive results `ReadString` will
return. -/
abbrev Stdin := List ReadResult

/-- Pop the next `ReadString('\n')` result.  An exhausted script behaves as
end-of-file, as a real reader does: empty data and `io.EOF`, forever. -/
def readString : Stdin → ReadResult × Stdin
  | [] => (⟨"", some .eof⟩, [])
  | r :: rest => (r, rest)

/-- An input line whose trailing error flag has been cleared; used to state
that `promptForConfigValues` ignores read errors. -/
def stripErrors (stdin : Stdin) : Stdin :=
  stdin.map fun r => ⟨r.data, none⟩

/-- What a run of `promptForConfigValues` produced: the updated record, the
unconsumed input, the prompt labels printed, and the returned Go `error`
(the function's last line is `return nil`, so it is always `none`). -/
structure PromptOutcome where
  config  : Config
  stdin   : Stdin
  prompts : List String
  err     : Option ReadError
deriving Repr, DecidableEq

/-- `promptForConfigValues` of `src/main.go`: for each of the four fields,
in order, if the field is empty, print its label, read one line (the read
error is discarded: `key, _ := reader.ReadString('\n')`), and assign the
trimmed data.  Returns `nil`. -/
def promptForConfigValues (config : Config) (stdin : Stdin) : PromptOutcome :=
  let s1 :=
    if config.ConsumerKey = "" then
      let (r, stdin) := readString stdin
      ({ config with ConsumerKey := trimSpace r.data }, stdin,
        ["Enter Consumer Key: "])
    else (config, stdin, [])
  let s2 :=
    if s1.1.ConsumerSecret = "" then
      let (r, stdin) := readString s1.2.1
      ({ s1.1 with ConsumerSecret := trimSpace r.data }, stdin,
        s1.2.2 ++ ["Enter Consumer Secret: "])
    else s1
  let s3 :=
    if s2.1.AccessToken = "" then
      let (r, stdin) := readString s2.2.1
      ({ s2.1 with AccessToken := trimSpace r.data }, stdin,
        s2.2.2 ++ ["Enter Access Token: "])
    else s2
  let s4 :=
    if s3.1.AccessSecret = "" then
      let (r, stdin) := readString s3.2.1
      ({ s3.1 with AccessSecret := trimSpace r.data }, stdin,
        s3.2.2 ++ ["Enter Access Secret: "])
    else s3
  ⟨s4.1, s4.2.1, s4.2.2, none⟩

/-! ## JSON model (the `encoding/json` dependency at its interface) -/

/-- Lower-case hexadecimal digit, as Go's encoder emits. -/
def hexDigitChar (n : Nat) : Char :=
  if n < 10 then Char.ofNat (0x30 + n) else Char.ofNat (0x61 + n - 10)

/-- Value of a hexadecimal digit, upper or lower case. -/
def hexVal (c : Char) : Option Nat :=
  if 0x30 ≤ c.toNat ∧ c.toNat ≤ 0x39 then some (c.toNat - 0x30)
  else if 0x61 ≤ c.toNat ∧ c.toNat ≤ 0x66 then some (c.toNat - 0x61 + 10)
  else if 0x41 ≤ c.toNat ∧ c.toNat ≤ 0x46 then some (c.toNat - 0x41 + 10)
  else none

/-- How Go's encoder (default `SetEscapeHTML(true)`, as `json.NewEncoder`
uses) writes one character inside a JSON string: quote, backslash, newline,
carriage return and tab get two-character escapes; `<`, `>`, `&`, the
remaining control characters, U+2028 and U+2029 get `\uXXXX`; everything
else is written verbatim. -/
def escapeChar (c : Char) : List Char :=
  if c = '"' then ['\\', '"']
  else if c = '\\' then ['\\', '\\']
  else if c = '\n' then ['\\', 'n']
  else if c = '\r' then ['\\', 'r']
  else if c = '\t' then ['\\', 't']
  else if c = '<' then ['\\', 'u', '0', '0', '3', 'c']
  else if c = '>' then ['\\', 'u', '0', '0', '3', 'e']
  else if c = '&' then ['\\', 'u', '0', '0', '2', '6']
  else if c.toNat < 0x20 then
    ['\\', 'u', '0', '0', hexDigitChar (c.toNat / 16), hexDigitChar (c.toNat % 16)]
  else if c.toNat = 0x2028 then ['\\', 'u', '2', '0', '2', '8']
  else if c.toNat = 0x2029 then ['\\', 'u', '2', '0', '2', '9']
  else [c]

/-- Escape a whole string body. -/
def escape : List Char → List Char
  | [] => []
  | c :: rest => escapeChar c ++ escape rest

/-- Prepend a decoded character to a string-body parse result. -/
def mapCons (ch : Char) (o : Option (List Char × List Char)) :
    Option (List Char × List Char) :=
  o.map fun p => (ch :: p.1, p.2)

/-- Decode the two-character escapes JSON allows after a backslash. -/
def unescapeSimple (e : Char) : Option Char :=
  if e = '"' then some '"'
  else if e = '\\' then some '\\'
  else if e = '/' then some '/'
  else if e = 'b' then some (Char.ofNat 0x8)
  else if e = 'f' then some (Char.ofNat 0xC)
  else if e = 'n' then some '\n'
  else if e = 'r' then some '\r'
  else if e = 't' then some '\t'
  else none

/-- The scalar value a `\uXXXX` escape denotes: code points in the
surrogate range decode to U+FFFD (this model does not recombine surrogate
pairs; the encoder never emits them). -/
def unicodeEscapeChar (n : Nat) : Char :=
  if 0xD800 ≤ n ∧ n < 0xE000 then Char.ofNat 0xFFFD else Char.ofNat n

mutual

/-- Parse the body of a JSON string up to and including the closing quote,
returning the decoded body and the rest of the input.  Raw control
characters are rejected. -/
def parseStringBody : List Char → Option (List Char × List Char)
  | [] => none
  | c :: rest =>
    if c = '"' then some ([], rest)
    else if c = '\\' then parseAfterBackslash rest
    else if c.toNat < 0x20 then none
    else mapCons c (parseStringBody rest)

/-- Parse what follows a backslash inside a JSON string, then the rest of
the string body. -/
def parseAfterBackslash : List Char → Option (List Char × List Char)
  | [] => none
  | e :: r =>
    if e = 'u' then parseUnicodeEscape r
    else
      match unescapeSimple e with
      | some ch => mapCons ch (parseStringBody r)
      | none => none

/-- Parse the four hex digits of a `\uXXXX` escape, then the rest of the
string body. -/
def parseUnicodeEscape : List Char → Option (List Char × List Char)
  | h1 :: h2 :: h3 :: h4 :: r2 =>
    match hexVal h1, hexVal h2, hexVal h3, hexVal h4 with
    | some a, some b, some c3, some d =>
      mapCons (unicodeEscapeChar (((a * 16 + b) * 16 + c3) * 16 + d))
        (parseStringBody r2)
    | _, _, _, _ => none
  | _ => none

end

/-- Skip JSON inter-token white space. -/
def skipWs : List Char → List Char
  | [] => []
  | c :: rest =>
    if c = ' ' ∨ c = '\t' ∨ c = '\n' ∨ c = '\r' then skipWs rest else c :: rest

/-- Consume one expected character. -/
def expectChar (c : Char) (l : List Char) : Option (List Char) :=
  match l with
  | [] => none
  | c2 :: rest => if c2 = c then some rest else none

/-- Parse a quoted JSON string. -/
def parseJString (l : List Char) : Option (List Char × List Char) :=
  match expectChar '"' l with
  | none => none
  | some r => parseStringBody r

/-- Parse the members of a JSON object after the opening brace, positioned
at the first key; fuel bounds the number of members. -/
def parsePairs : Nat → List Char → Option (List (List Char × List Char) × List Char)
  | 0, _ => none
  | fuel + 1, l =>
    match parseJString (skipWs l) with
    | none => none
    | some (key, r1) =>
      match expectChar ':' (skipWs r1) with
      | none => none
      | some r2 =>
        match parseJString (skipWs r2) with
        | none => none
        | some (val, r3) =>
          match skipWs r3 with
          | [] => none
          | c :: r4 =>
            if c = ',' then
              match parsePairs fuel r4 with
              | none => none
              | some (pairs, rest) => some ((key, val) :: pairs, rest)
            else if c = '\x7d' then some ([(key, val)], r4)
            else none

/-- Parse a JSON object of string members. -/
def parseObject (fuel : Nat) (l : List Char) :
    Option (List (List Char × List Char) × List Char) :=
  match expectChar '\x7b' (skipWs l) with
  | none => none
  | some r =>
    match skipWs r with
    | [] => none
    | c :: r2 => if c = '\x7d' then some ([], r2) else parsePairs fuel (c :: r2)

/-- Assign one parsed member to the struct field whose JSON tag it names,
as `json.Unmarshal` does for this struct (later duplicates overwrite,
unknown keys are dropped). -/
def applyPair (c : Config) (p : List Char × List Char) : Config :=
  if p.1 = "consumer_key".toList then { c with ConsumerKey := ⟨p.2⟩ }
  else if p.1 = "consumer_secret".toList then { c with ConsumerSecret := ⟨p.2⟩ }
  else if p.1 = "access_token".toList then { c with AccessToken := ⟨p.2⟩ }
  else if p.1 = "access_secret".toList then { c with AccessSecret := ⟨p.2⟩ }
  else c

/-- `decoder.Decode(config)` on the file content: parse one JSON object and
fill a zero `Config` from its members; anything after the value is ignored,
any parse failure is the decode error. -/
def decodeConfigChars (l : List Char) : Option Config :=
  match parseObject (l.length + 1) l with
  | none => none
  | some (pairs, _) => some (pairs.foldl applyPair ⟨"", "", "", ""⟩)

/-- Decode a whole file. -/
def decodeConfig (s : String) : Option Config :=
  decodeConfigChars s.toList

/-- The fixed skeleton chunks of the encoder output for `Config` with
`SetIndent("", "  ")`: opening brace and first key … separators … closing.
`Encoder.Encode` appends a final newline. -/
def jsonHead : List Char :=
  ['\x7b', '\n', ' ', ' ', '"', 'c', 'o', 'n', 's', 'u', 'm', 'e', 'r',
   '_', 'k', 'e', 'y', '"', ':', ' ', '"']

/-- Separator between the first and second members. -/
def jsonMid1 : List Char :=
  ['"', ',', '\n', ' ', ' ', '"', 'c', 'o', 'n', 's', 'u', 'm', 'e', 'r',
   '_', 's', 'e', 'c', 'r', 'e', 't', '"', ':', ' ', '"']

/-- Separator between the second and third members. -/
def jsonMid2 : List Char :=
  ['"', ',', '\n', ' ', ' ', '"', 'a', 'c', 'c', 'e', 's', 's',
   '_', 't', 'o', 'k', 'e', 'n', '"', ':', ' ', '"']

/-- Separator between the third and fourth members. -/
def jsonMid3 : List Char :=
  ['"', ',', '\n', ' ', ' ', '"', 'a', 'c', 'c', 'e', 's', 's',
   '_', 's', 'e', 'c', 'r', 'e', 't', '"', ':', ' ', '"']

/-- Closing quote, newline, closing brace, and the encoder's final
newline. -/
def jsonTail : List Char := ['"', '\n', '\x7d', '\n']

/-- The exact bytes Go's `json.Encoder` with two-space indent writes for a
`Config`. -/
def encodeConfigChars (c : Config) : List Char :=
  jsonHead ++ escape c.ConsumerKey.toList ++
  jsonMid1 ++ escape c.ConsumerSecret.toList ++
  jsonMid2 ++ escape c.AccessToken.toList ++
  jsonMid3 ++ escape c.AccessSecret.toList ++ jsonTail

/-- The file content `saveConfig` writes. -/
def encodeConfig (c : Config) : String := ⟨encodeConfigChars c⟩

/-! ## Configuration store -/

/-- The file system as this program sees it: the content of the config file
at `<home>/.config/clix.json`, if that file exists. -/
abbrev FileSystem := Option String

/-- `saveConfig` of `src/main.go`: `os.Create` truncates any existing file,
then the encoder writes the indented JSON. -/
def saveConfig (c : Config) (_fs : FileSystem) : FileSystem :=
  some (encodeConfig c)

/-- Startup errors `loadOrCreateConfig` can return (the directory-creation,
open and write failures also possible in Go are file-system faults outside
this model; the parse error is the one the content determines). -/
inductive ConfigError where
  | parseError
  | promptError (e : ReadError)
deriving Repr, DecidableEq

deriving instance DecidableEq for Except

/-- What a run of `loadOrCreateConfig` produced: the Go return value, the
resulting file system, the unconsumed input, the prompt labels printed and
the notices printed before prompting. -/
structure LoadResult where
  result   : Except ConfigError Config
  fs       : FileSystem
  stdin    : Stdin
  prompts  : List String
  messages : List String
deriving Repr, DecidableEq

/-- The incompleteness test of `src/main.go` line 66. -/
def configIncomplete (c : Config) : Bool :=
  c.ConsumerKey = "" || c.ConsumerSecret = "" ||
  c.AccessToken = "" || c.AccessSecret = ""

/-- `loadOrCreateConfig` of `src/main.go`: with no file, prompt into an
empty record and persist it; with a file, decode it (propagating the parse
error), and if the record is incomplete, prompt for the missing fields and
persist.  The record is returned without any completeness re-check. -/
def loadOrCreateConfig (fs : FileSystem) (stdin : Stdin) : LoadResult :=
  match fs with
  | none =>
    let p := promptForConfigValues ⟨"", "", "", ""⟩ stdin
    match p.err with
    | some e => ⟨.error (.promptError e), fs, p.stdin, p.prompts,
        ["Configuration file not found. Creating a new one..."]⟩
    | none =>
      ⟨.ok p.config, saveConfig p.config fs, p.stdin, p.prompts,
        ["Configuration file not found. Creating a new one..."]⟩
  | some content =>
    match decodeConfig content with
    | none => ⟨.error .parseError, fs, stdin, [], []⟩
    | some config =>
      if configIncomplete config then
        let p := promptForConfigValues config stdin
        match p.err with
        | some e => ⟨.error (.promptError e), fs, p.stdin, p.prompts,
            ["Configuration file is incomplete. Prompting for missing values..."]⟩
        | none =>
          ⟨.ok p.config, saveConfig p.config fs, p.stdin, p.prompts,
            ["Configuration file is incomplete. Prompting for missing values..."]⟩
      else ⟨.ok config, fs, stdin, [], []⟩

/-! ## Command loop -/

/-- A failed `managetweet.Create` call (auth failure, rate limit, network
error — indistinguishable to this program). -/
inductive PublishError where
  | remoteError
deriving Repr, DecidableEq

/-- The remote service, modelled as an oracle giving the result of the
n-th publish attempt of the run: the created post's identifier, or an
error. -/
abbrev PublishOracle := Nat → Except PublishError String

/-- One observable event of the command loop, in the order the loop emits
them: the `tweet: ` prompt, the message printed for a failed read, a
publish attempt carrying the trimmed text sent to the remote call, the
message printed for a failed publish, the success message carrying the
returned identifier, and the `Goodbye!` farewell. -/
inductive LoopEvent where
  | promptTweet
  | readErrorMsg (e : ReadError)
  | publishAttempt (text : String)
  | publishErrorMsg
  | successMsg (id : String)
  | goodbye
deriving Repr, DecidableEq

/-- How a finite observation of the loop ended: the loop broke out of its
`for` normally (sentinel seen), or the fuel ran out with the loop still
going. -/
inductive LoopOutcome where
  | terminated
  | fuelExhausted
deriving Repr, DecidableEq

/-- A finite observation of the command loop. -/
structure LoopTrace where
  events  : List LoopEvent
  outcome : LoopOutcome
deriving Repr, DecidableEq

/-- The `for` loop of `main` (lines 142–168 of `src/main.go`), run for at
most `fuel` iterations; `n` counts the publish attempts already made (the
oracle's position).  Each iteration prints the prompt, reads a line
(a read error is printed and the line — even its data — is dropped), trims,
breaks on `exit`/`quit`, and otherwise publishes, printing either the
error or the success message. -/
def runLoop (oracle : PublishOracle) : Nat → Stdin → Nat → LoopTrace
  | 0, _, _ => ⟨[], .fuelExhausted⟩
  | fuel + 1, stdin, n =>
    let (r, stdin') := readString stdin
    match r.err with
    | some e =>
      let t := runLoop oracle fuel stdin' n
      ⟨.promptTweet :: .readErrorMsg e :: t.events, t.outcome⟩
    | none =>
      let text := trimSpace r.data
      if text = "exit" ∨ text = "quit" then
        ⟨[.promptTweet, .goodbye], .terminated⟩
      else
        match oracle n with
        | .error _ =>
          let t := runLoop oracle fuel stdin' (n + 1)
          ⟨.promptTweet :: .publishAttempt text :: .publishErrorMsg :: t.events,
            t.outcome⟩
        | .ok id =>
          let t := runLoop oracle fuel stdin' (n + 1)
          ⟨.promptTweet :: .publishAttempt text :: .successMsg id :: t.events,
            t.outcome⟩

/-- The texts of the publish attempts in a trace, in order. -/
def publishAttempts : List LoopEvent → List String
  | [] => []
  | .publishAttempt t :: rest => t :: publishAttempts rest
  | _ :: rest => publishAttempts rest

/-- A `gotwi.NewClient` failure (the library rejecting the credentials);
whether it occurs depends on library internals, so it is an oracle input
to `runMain`. -/
inductive ClientError where
  | constructionError
deriving Repr, DecidableEq

/-- Why `main` returned before its loop, when it did. -/
inductive StartupError where
  | configError (e : ConfigError)
  | clientError (e : ClientError)
deriving Repr, DecidableEq

/-- A whole run of `main`: either a startup error was printed and the
function returned without entering the loop, or the loop ran. -/
structure MainTrace where
  startupError : Option StartupError
  loop         : Option LoopTrace
deriving Repr, DecidableEq

/-- `main` of `src/main.go`: load or create the config (printing the error
and returning on failure), build the client (likewise), then run the
command loop on the remaining input. -/
def runMain (fs : FileSystem) (stdin : Stdin)
    (newClientResult : Except ClientError Unit) (oracle : PublishOracle)
    (fuel : Nat) : MainTrace :=
  let r := loadOrCreateConfig fs stdin
  match r.result with
  | .error e => ⟨some (.configError e), none⟩
  | .ok _ =>
    match newClientResult with
    | .error ce => ⟨some (.clientError ce), none⟩
    | .ok _ => ⟨none, some (runLoop oracle fuel r.stdin 0)⟩

/-! ## Theorems: command loop -/

/-- A remote service that always succeeds (used for concrete witnesses). -/
def oracleOk : PublishOracle := fun _ => .ok "1"

/-- A remote service that always fails (used for concrete witnesses). -/
def oracleFail : PublishOracle := fun _ => .error .remoteError

/-- C1: whenever the loop reads a line without error and its trimmed text
is exactly `exit` or `quit`, the iteration prints the prompt, prints the
farewell and terminates the loop normally, with no publish attempt for that
line and the rest of the input untouched; in particular the script `hello`,
`exit` produces exactly one publish attempt, for `hello`, and then clean
termination with the farewell, whatever the remote service answers. -/
theorem c1_sentinel_termination :
    (∀ (oracle : PublishOracle) (fuel n : Nat) (d : String) (rest : Stdin),
      trimSpace d = "exit" ∨ trimSpace d = "quit" →
      runLoop oracle (fuel + 1) (⟨d, none⟩ :: rest) n =
        ⟨[.promptTweet, .goodbye], .terminated⟩) ∧
    (∀ (oracle : PublishOracle),
      publishAttempts (runLoop oracle 2
          [⟨"hello\n", none⟩, ⟨"exit\n", none⟩] 0).events = ["hello"] ∧
      (runLoop oracle 2 [⟨"hello\n", none⟩, ⟨"exit\n", none⟩] 0).outcome =
        .terminated ∧
      .goodbye ∈ (runLoop oracle 2
          [⟨"hello\n", none⟩, ⟨"exit\n", none⟩] 0).events) := by
  constructor
  · intro oracle fuel n d rest h
    rcases h with h | h <;> simp [runLoop, readString, h]
  · intro oracle
    have h1 : trimSpace "hello\n" = "hello" := by decide
    have h2 : trimSpace "exit\n" = "exit" := by decide
    cases ho : oracle 0 <;>
      simp [runLoop, readString, h1, h2, ho, publishAttempts]

/-- Witness for C1 at a concrete sentinel line. -/
theorem c1_sentinel_termination_witness :
    (trimSpace "quit\n" = "exit" ∨ trimSpace "quit\n" = "quit") ∧
    runLoop oracleOk 1 [⟨"quit\n", none⟩] 0 =
      ⟨[.promptTweet, .goodbye], .terminated⟩ :=
  ⟨Or.inr (by decide),
    c1_sentinel_termination.1 oracleOk 0 0 "quit\n" [] (Or.inr (by decide))⟩

/-- C7: neither failure in the loop is fatal.  A failing read produces the
prompt and the read-error message, then the loop goes on with the rest of
the input, the same oracle position (nothing was published, nothing is
retried) and one unit less fuel; a failing publish on a non-sentinel line
produces the prompt, exactly one publish attempt with the trimmed text and
the publish-error message, then the loop goes on with the rest of the
input and the next oracle position (the failed publish is not retried). -/
theorem c7_failures_not_fatal :
    (∀ (oracle : PublishOracle) (fuel n : Nat) (d : String) (e : ReadError)
        (rest : Stdin),
      runLoop oracle (fuel + 1) (⟨d, some e⟩ :: rest) n =
        ⟨.promptTweet :: .readErrorMsg e :: (runLoop oracle fuel rest n).events,
          (runLoop oracle fuel rest n).outcome⟩) ∧
    (∀ (oracle : PublishOracle) (fuel n : Nat) (d : String) (rest : Stdin)
        (pe : PublishError),
      trimSpace d ≠ "exit" → trimSpace d ≠ "quit" → oracle n = .error pe →
      runLoop oracle (fuel + 1) (⟨d, none⟩ :: rest) n =
        ⟨.promptTweet :: .publishAttempt (trimSpace d) :: .publishErrorMsg ::
            (runLoop oracle fuel rest (n + 1)).events,
          (runLoop oracle fuel rest (n + 1)).outcome⟩) := by
  constructor
  · intro oracle fuel n d e rest
    simp [runLoop, readString]
  · intro oracle fuel n d rest pe h1 h2 ho
    simp [runLoop, readString, h1, h2, ho]

/-- Witness for C7: a failed read then a failed publish, neither fatal. -/
theorem c7_failures_not_fatal_witness :
    runLoop oracleFail 2 [⟨"lost", some .ioError⟩, ⟨"hi\n", none⟩] 0 =
      ⟨[.promptTweet, .readErrorMsg .ioError, .promptTweet,
        .publishAttempt "hi", .publishErrorMsg], .fuelExhausted⟩ := by
  have e1 := c7_failures_not_fatal.1 oracleFail 1 0 "lost" .ioError
    [⟨"hi\n", none⟩]
  have e2 := c7_failures_not_fatal.2 oracleFail 0 0 "hi\n" [] .remoteError
    (by decide) (by decide) rfl
  rw [e1, e2]
  decide

/-- C8: a line that trims to the empty string is not a sentinel, so the
iteration still makes a publish attempt carrying the empty text — there is
no local guard against empty content. -/
theorem c8_empty_line_published (oracle : PublishOracle) (fuel n : Nat)
    (d : String) (rest : Stdin) (h : trimSpace d = "") :
    (runLoop oracle (fuel + 1) (⟨d, none⟩ :: rest) n).events.take 2 =
      [.promptTweet, .publishAttempt ""] := by
  have h1 : ("" : String) ≠ "exit" := by decide
  have h2 : ("" : String) ≠ "quit" := by decide
  cases ho : oracle n <;> simp [runLoop, readString, h, h1, h2, ho]

/-- Witness for C8 on a line of pure white space. -/
theorem c8_empty_line_published_witness :
    (runLoop oracleOk 1 [⟨"   \n", none⟩] 0).events.take 2 =
      [.promptTweet, .publishAttempt ""] :=
  c8_empty_line_published oracleOk 0 0 "   \n" [] (by decide)

/-! ## Theorems: interactive prompting -/

/-- Helper: clearing the error flags of the input changes neither the data
a read returns nor the remaining input (up to the same clearing). -/
theorem readString_stripErrors (stdin : Stdin) :
    (readString (stripErrors stdin)).1.data = (readString stdin).1.data ∧
    (readString (stripErrors stdin)).2 = stripErrors (readString stdin).2 := by
  cases stdin <;> simp [readString, stripErrors]

/-- Helper: `promptForConfigValues` always returns `nil`. -/
theorem promptForConfigValues_err (c : Config) (stdin : Stdin) :
    (promptForConfigValues c stdin).err = none := rfl

/-- C2: the prompting operation prompts for exactly the empty fields, in
the fixed order consumer key, consumer secret, access token, access
secret, and the already-populated fields are left unchanged. -/
theorem c2_prompts_exactly_missing (c : Config) (stdin : Stdin)
    (_h : configIncomplete c = true) :
    (promptForConfigValues c stdin).prompts =
      (if c.ConsumerKey = "" then ["Enter Consumer Key: "] else []) ++
      (if c.ConsumerSecret = "" then ["Enter Consumer Secret: "] else []) ++
      (if c.AccessToken = "" then ["Enter Access Token: "] else []) ++
      (if c.AccessSecret = "" then ["Enter Access Secret: "] else []) ∧
    (c.ConsumerKey ≠ "" →
      (promptForConfigValues c stdin).config.ConsumerKey = c.ConsumerKey) ∧
    (c.ConsumerSecret ≠ "" →
      (promptForConfigValues c stdin).config.ConsumerSecret = c.ConsumerSecret) ∧
    (c.AccessToken ≠ "" →
      (promptForConfigValues c stdin).config.AccessToken = c.AccessToken) ∧
    (c.AccessSecret ≠ "" →
      (promptForConfigValues c stdin).config.AccessSecret = c.AccessSecret) := by
  by_cases h1 : c.ConsumerKey = "" <;>
    by_cases h2 : c.ConsumerSecret = "" <;>
      by_cases h3 : c.AccessToken = "" <;>
        by_cases h4 : c.AccessSecret = "" <;>
          simp [promptForConfigValues, h1, h2, h3, h4]

/-- Witness for C2: one populated field, three prompts in order. -/
theorem c2_prompts_exactly_missing_witness :
    configIncomplete ⟨"", "ham", "", ""⟩ = true ∧
    (promptForConfigValues ⟨"", "ham", "", ""⟩ []).prompts =
      ["Enter Consumer Key: ", "Enter Access Token: ",
        "Enter Access Secret: "] ∧
    (promptForConfigValues ⟨"", "ham", "", ""⟩ []).config.ConsumerSecret =
      "ham" := by
  have h := c2_prompts_exactly_missing ⟨"", "ham", "", ""⟩ [] (by decide)
  exact ⟨by decide, by rw [h.1]; decide, h.2.2.1 (by decide)⟩

/-- C9: the prompting operation never fails — its returned `error` is
always `nil` — and it ignores read errors entirely: clearing every error
flag from the input changes neither the resulting record nor the prompts,
and when the first field is prompted from a failed read, the field is
assigned the trimmed data read before the failure. -/
theorem c9_prompt_never_fails (c : Config) (stdin : Stdin) :
    (promptForConfigValues c stdin).err = none ∧
    (promptForConfigValues c (stripErrors stdin)).config =
      (promptForConfigValues c stdin).config ∧
    (promptForConfigValues c (stripErrors stdin)).prompts =
      (promptForConfigValues c stdin).prompts ∧
    (∀ (d : String) (e : ReadError) (rest : Stdin), c.ConsumerKey = "" →
      (promptForConfigValues c (⟨d, some e⟩ :: rest)).config.ConsumerKey =
        trimSpace d) := by
  refine ⟨rfl, ?_, ?_, ?_⟩
  · by_cases h1 : c.ConsumerKey = "" <;>
      by_cases h2 : c.ConsumerSecret = "" <;>
        by_cases h3 : c.AccessToken = "" <;>
          by_cases h4 : c.AccessSecret = "" <;>
            simp [promptForConfigValues, readString_stripErrors, h1, h2, h3, h4]
  · by_cases h1 : c.ConsumerKey = "" <;>
      by_cases h2 : c.ConsumerSecret = "" <;>
        by_cases h3 : c.AccessToken = "" <;>
          by_cases h4 : c.AccessSecret = "" <;>
            simp [promptForConfigValues, readString_stripErrors, h1, h2, h3, h4]
  · intro d e rest h1
    by_cases h2 : c.ConsumerSecret = "" <;>
      by_cases h3 : c.AccessToken = "" <;>
        by_cases h4 : c.AccessSecret = "" <;>
          simp [promptForConfigValues, readString, h1, h2, h3, h4]

/-! ## Theorems: configuration store -/

/-- C5: a config file whose content does not decode makes
`loadOrCreateConfig` fail with the parse error without touching the file,
the input or the prompts, and `main` then returns at startup with that
error printed and never enters the posting loop. -/
theorem c5_malformed_config (content : String) (stdin : Stdin)
    (ncr : Except ClientError Unit) (oracle : PublishOracle) (fuel : Nat)
    (h : decodeConfig content = none) :
    loadOrCreateConfig (some content) stdin =
      ⟨.error .parseError, some content, stdin, [], []⟩ ∧
    runMain (some content) stdin ncr oracle fuel =
      ⟨some (.configError .parseError), none⟩ := by
  constructor <;> simp [loadOrCreateConfig, runMain, h]

/-- Witness for C5 on a concrete non-JSON file. -/
theorem c5_malformed_config_witness :
    decodeConfig "not json at all" = none ∧
    runMain (some "not json at all") [] (.ok ()) oracleOk 3 =
      ⟨some (.configError .parseError), none⟩ :=
  ⟨by decide,
    (c5_malformed_config "not json at all" [] (.ok ()) oracleOk 3 (by decide)).2⟩

/-- C6: with a complete, valid config file, `loadOrCreateConfig` prompts
for nothing, changes nothing, and returns the decoded record; calling it
again on the resulting state gives the same prompt-free answer, so both
calls return equal records. -/
theorem c6_idempotent_reload (content : String) (stdin : Stdin) (c : Config)
    (hdec : decodeConfig content = some c)
    (hc : configIncomplete c = false) :
    loadOrCreateConfig (some content) stdin =
      ⟨.ok c, some content, stdin, [], []⟩ ∧
    loadOrCreateConfig (loadOrCreateConfig (some content) stdin).fs
        (loadOrCreateConfig (some content) stdin).stdin =
      ⟨.ok c, some content, stdin, [], []⟩ := by
  have h1 : loadOrCreateConfig (some content) stdin =
      ⟨.ok c, some content, stdin, [], []⟩ := by
    simp [loadOrCreateConfig, hdec, hc]
  exact ⟨h1, by rw [h1]; exact h1⟩

/-- Witness for C6 on a concrete complete file. -/
theorem c6_idempotent_reload_witness :
    decodeConfig (encodeConfig ⟨"k", "s", "t", "a"⟩) =
      some ⟨"k", "s", "t", "a"⟩ ∧
    loadOrCreateConfig (some (encodeConfig ⟨"k", "s", "t", "a"⟩)) [] =
      ⟨.ok ⟨"k", "s", "t", "a"⟩, some (encodeConfig ⟨"k", "s", "t", "a"⟩),
        [], [], []⟩ :=
  ⟨by decide,
    (c6_idempotent_reload (encodeConfig ⟨"k", "s", "t", "a"⟩) []
      ⟨"k", "s", "t", "a"⟩ (by decide) (by decide)).1⟩

/-- C10: both prompting paths persist the record that prompting produced,
unconditionally — the file written is exactly the encoding of the returned
record, whether or not it is complete, and it replaces whatever was there
before. -/
theorem c10_unconditional_persist (stdin : Stdin) :
    (loadOrCreateConfig none stdin =
      ⟨.ok (promptForConfigValues ⟨"", "", "", ""⟩ stdin).config,
        some (encodeConfig (promptForConfigValues ⟨"", "", "", ""⟩ stdin).config),
        (promptForConfigValues ⟨"", "", "", ""⟩ stdin).stdin,
        (promptForConfigValues ⟨"", "", "", ""⟩ stdin).prompts,
        ["Configuration file not found. Creating a new one..."]⟩) ∧
    (∀ (content : String) (c : Config),
      decodeConfig content = some c → configIncomplete c = true →
      loadOrCreateConfig (some content) stdin =
        ⟨.ok (promptForConfigValues c stdin).config,
          some (encodeConfig (promptForConfigValues c stdin).config),
          (promptForConfigValues c stdin).stdin,
          (promptForConfigValues c stdin).prompts,
          ["Configuration file is incomplete. Prompting for missing values..."]⟩) := by
  constructor
  · simp [loadOrCreateConfig, promptForConfigValues_err, saveConfig]
  · intro content c hdec hc
    simp [loadOrCreateConfig, hdec, hc, promptForConfigValues_err, saveConfig]

/-- Witness for C10: an incomplete file plus end-of-input; the persisted
file still carries an empty access secret. -/
theorem c10_unconditional_persist_witness :
    decodeConfig "\x7b\"consumer_key\": \"k\"\x7d" =
      some ⟨"k", "", "", ""⟩ ∧
    configIncomplete ⟨"k", "", "", ""⟩ = true ∧
    loadOrCreateConfig (some "\x7b\"consumer_key\": \"k\"\x7d") [] =
      ⟨.ok ⟨"k", "", "", ""⟩, some (encodeConfig ⟨"k", "", "", ""⟩), [],
        ["Enter Consumer Secret: ", "Enter Access Token: ",
          "Enter Access Secret: "],
        ["Configuration file is incomplete. Prompting for missing values..."]⟩ := by
  refine ⟨by decide, by decide, ?_⟩
  have h := (c10_unconditional_persist []).2 "\x7b\"consumer_key\": \"k\"\x7d"
    ⟨"k", "", "", ""⟩ (by decide) (by decide)
  rw [h]
  decide

/-- C3 is false on the code: prompting accepts empty responses (and read
failures) without complaint and `loadOrCreateConfig` never re-checks
completeness after prompting, so a successful run can return a record with
all four fields empty.  Here: no config file, four blank input lines. -/
theorem c3_counterexample :
    (loadOrCreateConfig none
        [⟨"\n", none⟩, ⟨"\n", none⟩, ⟨"\n", none⟩, ⟨"\n", none⟩]).result =
      .ok ⟨"", "", "", ""⟩ ∧
    configIncomplete ⟨"", "", "", ""⟩ = true := by
  exact ⟨by decide, by decide⟩

/-- C3 amended: when `loadOrCreateConfig` succeeds, the returned record is
complete provided the input script offers at least four lines and every
line is non-empty after trimming (so every prompted field receives
non-empty text; fields that were already populated are non-empty by the
incompleteness test). -/
theorem c3_complete_on_success (fs : FileSystem) (a b c d : ReadResult)
    (rest : Stdin) (cfg : Config)
    (ha : trimSpace a.data ≠ "") (hb : trimSpace b.data ≠ "")
    (hc : trimSpace c.data ≠ "") (hd : trimSpace d.data ≠ "")
    (h : (loadOrCreateConfig fs (a :: b :: c :: d :: rest)).result = .ok cfg) :
    configIncomplete cfg = false := by
  rcases fs with _ | content
  · simp only [loadOrCreateConfig, promptForConfigValues_err] at h
    simp [promptForConfigValues, readString] at h
    subst h
    simp [configIncomplete, ha, hb, hc, hd]
  · rcases hdec : decodeConfig content with _ | cfg0
    · simp [loadOrCreateConfig, hdec] at h
    · rcases hinc : configIncomplete cfg0 with _ | _
      · simp [loadOrCreateConfig, hdec, hinc] at h
        subst h
        exact hinc
      · simp only [loadOrCreateConfig, hdec, hinc, if_pos,
          promptForConfigValues_err] at h
        have h1 : cfg0.ConsumerKey ≠ "" → cfg0.ConsumerKey ≠ "" := fun x => x
        by_cases e1 : cfg0.ConsumerKey = "" <;>
          by_cases e2 : cfg0.ConsumerSecret = "" <;>
            by_cases e3 : cfg0.AccessToken = "" <;>
              by_cases e4 : cfg0.AccessSecret = "" <;>
                · simp [promptForConfigValues, readString, e1, e2, e3, e4] at h
                  subst h
                  simp [configIncomplete, ha, hb, hc, hd, e1, e2, e3, e4]

/-! ## Theorems: JSON round-trip (C4) -/

/-- Helper: `hexVal` inverts `hexDigitChar` on digit values. -/
theorem hexVal_hexDigitChar : ∀ n < 16, hexVal (hexDigitChar n) = some n := by
  decide

/-- Helper: the string-body parser decodes one escaped character back to
the character the encoder escaped. -/
theorem parse_escapeChar (c : Char) (l : List Char) :
    parseStringBody (escapeChar c ++ l) = mapCons c (parseStringBody l) := by
  by_cases h1 : c = '"'
  · subst h1
    simp [escapeChar, parseStringBody, parseAfterBackslash, unescapeSimple]
  by_cases h2 : c = '\\'
  · subst h2
    simp [escapeChar, parseStringBody, parseAfterBackslash, unescapeSimple, h1]
  by_cases h3 : c = '\n'
  · subst h3
    simp [escapeChar, parseStringBody, parseAfterBackslash, unescapeSimple, h1, h2]
  by_cases h4 : c = '\r'
  · subst h4
    simp [escapeChar, parseStringBody, parseAfterBackslash, unescapeSimple, h1,
      h2, h3]
  by_cases h5 : c = '\t'
  · subst h5
    simp [escapeChar, parseStringBody, parseAfterBackslash, unescapeSimple, h1,
      h2, h3, h4]
  by_cases h6 : c = '<'
  · subst h6
    simp [escapeChar, parseStringBody, parseAfterBackslash, parseUnicodeEscape,
      hexVal, unicodeEscapeChar, h1, h2, h3, h4, h5,
      show Char.ofNat 60 = '<' from by decide]
  by_cases h7 : c = '>'
  · subst h7
    simp [escapeChar, parseStringBody, parseAfterBackslash, parseUnicodeEscape,
      hexVal, unicodeEscapeChar, h1, h2, h3, h4, h5, h6,
      show Char.ofNat 62 = '>' from by decide]
  by_cases h8 : c = '&'
  · subst h8
    simp [escapeChar, parseStringBody, parseAfterBackslash, parseUnicodeEscape,
      hexVal, unicodeEscapeChar, h1, h2, h3, h4, h5, h6, h7,
      show Char.ofNat 38 = '&' from by decide]
  by_cases h9 : c.toNat < 0x20
  · have e1 : hexVal '0' = some 0 := by decide
    have e2 : hexVal (hexDigitChar (c.toNat / 16)) = some (c.toNat / 16) :=
      hexVal_hexDigitChar _ (by omega)
    have e3 : hexVal (hexDigitChar (c.toNat % 16)) = some (c.toNat % 16) :=
      hexVal_hexDigitChar _ (by omega)
    have hch : unicodeEscapeChar (c.toNat / 16 * 16 + c.toNat % 16) = c := by
      rw [show c.toNat / 16 * 16 + c.toNat % 16 = c.toNat from by omega]
      rw [unicodeEscapeChar, if_neg (by omega), Char.ofNat_toNat]
    simp [escapeChar, parseStringBody, parseAfterBackslash, parseUnicodeEscape,
      e1, e2, e3, hch, h1, h2, h3, h4, h5, h6, h7, h8, h9]
  by_cases h10 : c.toNat = 0x2028
  · have hc : Char.ofNat 0x2028 = c := by rw [← h10, Char.ofNat_toNat]
    simp [escapeChar, parseStringBody, parseAfterBackslash, parseUnicodeEscape,
      hexVal, unicodeEscapeChar, h1, h2, h3, h4, h5, h6, h7, h8, h9, h10, hc]
  by_cases h11 : c.toNat = 0x2029
  · have hc : Char.ofNat 0x2029 = c := by rw [← h11, Char.ofNat_toNat]
    simp [escapeChar, parseStringBody, parseAfterBackslash, parseUnicodeEscape,
      hexVal, unicodeEscapeChar, h1, h2, h3, h4, h5, h6, h7, h8, h9, h10, h11,
      hc]
  · simp [escapeChar, parseStringBody, h1, h2, h3, h4, h5, h6, h7, h8, h9, h10,
      h11]

/-- Helper: the string-body parser inverts the encoder's escaping of a
whole string body. -/
theorem parse_escape (s : List Char) (rest : List Char) :
    parseStringBody (escape s ++ '"' :: rest) = some (s, rest) := by
  induction s generalizing rest with
  | nil => simp [escape, parseStringBody]
  | cons c s ih =>
    show parseStringBody ((escapeChar c ++ escape s) ++ '"' :: rest) = _
    rw [List.append_assoc, parse_escapeChar, ih]
    rfl

/-- Helper: parsing the encoder's output recovers the four members, in
order, with the bodies unescaped, leaving the final newline. -/
theorem parseObject_encoded (m : Nat) (k s t a : String) :
    parseObject (m + 4) (encodeConfigChars ⟨k, s, t, a⟩) =
      some ([(['c','o','n','s','u','m','e','r','_','k','e','y'], k.toList),
             (['c','o','n','s','u','m','e','r','_','s','e','c','r','e','t'],
               s.toList),
             (['a','c','c','e','s','s','_','t','o','k','e','n'], t.toList),
             (['a','c','c','e','s','s','_','s','e','c','r','e','t'],
               a.toList)],
            ['\n']) := by
  rw [show m + 4 = m + 3 + 1 from rfl]
  simp only [encodeConfigChars, jsonHead, jsonMid1, jsonMid2, jsonMid3,
    jsonTail, List.cons_append, List.append_assoc, List.nil_append]
  simp [parseObject, parsePairs, parseJString, skipWs, expectChar,
    parseStringBody, parseAfterBackslash, unescapeSimple, mapCons, parse_escape]

/-- Helper: decoding the encoder's output recovers the record. -/
theorem decode_encode (c : Config) :
    decodeConfigChars (encodeConfigChars c) = some c := by
  obtain ⟨k, s, t, a⟩ := c
  have hlen : (encodeConfigChars ⟨k, s, t, a⟩).length + 1 =
      ((encodeConfigChars ⟨k, s, t, a⟩).length - 3) + 4 := by
    simp [encodeConfigChars, jsonHead, jsonMid1, jsonMid2, jsonMid3, jsonTail]
  rw [decodeConfigChars, hlen, parseObject_encoded]
  simp only [List.foldl, applyPair,
    (show ['c','o','n','s','u','m','e','r','_','k','e','y'] =
      "consumer_key".toList from by decide),
    (show ['c','o','n','s','u','m','e','r','_','s','e','c','r','e','t'] =
      "consumer_secret".toList from by decide),
    (show ['a','c','c','e','s','s','_','t','o','k','e','n'] =
      "access_token".toList from by decide),
    (show ['a','c','c','e','s','s','_','s','e','c','r','e','t'] =
      "access_secret".toList from by decide),
    if_pos rfl,
    (show ¬ ("consumer_secret".toList = "consumer_key".toList) from by decide),
    (show ¬ ("access_token".toList = "consumer_key".toList) from by decide),
    (show ¬ ("access_token".toList = "consumer_secret".toList) from by decide),
    (show ¬ ("access_secret".toList = "consumer_key".toList) from by decide),
    (show ¬ ("access_secret".toList = "consumer_secret".toList) from by decide),
    (show ¬ ("access_secret".toList = "access_token".toList) from by decide)]
  simp

/-- C4: persisting a record writes exactly its JSON encoding, and decoding
that file content yields an identical record, whatever the record's field
values; consequently, when the record is complete, a subsequent
`loadOrCreateConfig` on the persisted file returns it unchanged. -/
theorem c4_save_load_roundtrip (c : Config) (fs : FileSystem) (stdin : Stdin) :
    saveConfig c fs = some (encodeConfig c) ∧
    decodeConfig (encodeConfig c) = some c ∧
    (configIncomplete c = false →
      loadOrCreateConfig (saveConfig c fs) stdin =
        ⟨.ok c, some (encodeConfig c), stdin, [], []⟩) := by
  have hdec : decodeConfig (encodeConfig c) = some c := decode_encode c
  refine ⟨rfl, hdec, fun hc => ?_⟩
  simp [saveConfig, loadOrCreateConfig, hdec, hc]

/-- Witness for C4 on a concrete complete record. -/
theorem c4_save_load_roundtrip_witness :
    configIncomplete ⟨"my key", "my secret", "tok&en", "a\"b"⟩ = false ∧
    loadOrCreateConfig
        (saveConfig ⟨"my key", "my secret", "tok&en", "a\"b"⟩ none) [] =
      ⟨.ok ⟨"my key", "my secret", "tok&en", "a\"b"⟩,
        some (encodeConfig ⟨"my key", "my secret", "tok&en", "a\"b"⟩),
        [], [], []⟩ :=
  ⟨by decide,
    (c4_save_load_roundtrip ⟨"my key", "my secret", "tok&en", "a\"b"⟩ none
      []).2.2 (by decide)⟩

/-- Witness for the amended C3: four non-blank input lines yield a complete
record. -/
theorem c3_complete_on_success_witness :
    configIncomplete ⟨"w", "x", "y", "z"⟩ = false :=
  c3_complete_on_success none ⟨"w\n", none⟩ ⟨"x\n", none⟩ ⟨"y\n", none⟩
    ⟨"z\n", none⟩ [] ⟨"w", "x", "y", "z"⟩ (by decide) (by decide) (by decide)
    (by decide) (by decide)

/-- Witness for C9: a failed read still fills the prompted field with the
trimmed data read before the failure. -/
theorem c9_prompt_never_fails_witness :
    (promptForConfigValues ⟨"", "s", "t", "a"⟩
        [⟨"partly read key", some .ioError⟩]).config.ConsumerKey =
      trimSpace "partly read key" :=
  (c9_prompt_never_fails ⟨"", "s", "t", "a"⟩ []).2.2.2 "partly read key"
    .ioError [] rfl
